import Mathlib

/-!
Shallow embedding of the subchannel/device binding and recovery core of
`drivers/s390/cio/device.c` (s390 common I/O layer, kernel 2.6.29 tree).

The embedding translates the C functions named in the claims into pure
Lean functions.  Machine state touched by a function (device state,
online flag, pending timeout, refcounts, binding, recovery timer) is
carried explicitly; calls into excluded collaborators (the device FSM,
the driver callbacks, `stsch`, `device_move`, `css_probe_device`) are
represented by oracle inputs giving their results, and externally
visible calls are recorded as effects.
-/

namespace CioDevice

/-! ### Error codes (linux errno values used by device.c) -/

def EAGAIN : Int := 11

def ENODEV : Int := 19

def EINVAL : Int := 22

/-! ### Device lifecycle states (`DEV_STATE_*`) -/

inductive DevState where
  | NOT_OPER
  | OFFLINE
  | ONLINE
  | BOXED
  | DISCONNECTED
  | DISCONNECTED_SENSE_ID
  | CLEAR_VERIFY
  | QUIESCE
  | SENSE_ID
deriving DecidableEq, Repr

/-! ### Hardware status snapshot (`struct schib`, fields used by device.c) -/

/-- Path-management control word fields read by the event evaluator:
device-number-valid bit `dnv` and device number `dev`. -/
structure Pmcw where
  dnv : Bool
  dev : Nat
deriving DecidableEq, Repr

structure Schib where
  pmcw : Pmcw
deriving DecidableEq, Repr

/-- Classification returned by `io_subchannel_get_status` (`CIO_*`). -/
inductive CioEvent where
  | GONE
  | NO_PATH
  | REVALIDATE
  | OPER
deriving DecidableEq, Repr

/-- `io_subchannel_get_status` (device.c:1469).  `stsch` is the result of
the hardware status query: `none` when `stsch()` returned nonzero, else
the fresh `schib`.  `schSchib` is the subchannel's stored snapshot
`sch->schib`, `lpm` its path mask `sch->lpm`. -/
def io_subchannel_get_status (schSchib : Schib) (lpm : Nat) (stsch : Option Schib) : CioEvent :=
  match stsch with
  | none => .GONE
  | some schib =>
    if !schib.pmcw.dnv then .GONE
    else if schSchib.pmcw.dnv && decide (schib.pmcw.dev ≠ schSchib.pmcw.dev) then .REVALIDATE
    else if lpm == 0 then .NO_PATH
    else .OPER

/-! ### Bound-device state as seen by the event evaluator -/

/-- The fields of a bound ccw device that `io_subchannel_sch_event` and
its sub-calls read or write: FSM state, online flag, whether a device
timeout is currently pending, and the `fake_irb` flag. -/
structure CDevS where
  state : DevState
  online : Bool
  timeoutPending : Bool
  fake_irb : Bool
deriving DecidableEq, Repr

/-- `device_is_disconnected` (device.c:1482); a NULL device is `none`. -/
def device_is_disconnected : Option CDevS → Bool
  | none => false
  | some cdev =>
    cdev.state == .DISCONNECTED || cdev.state == .DISCONNECTED_SENSE_ID

/-- Modelled from the spec: `ccw_device_set_timeout` lives in the device
FSM collaborator (device_fsm.c), not in this file; per the spec, device
timeouts are explicit and a call with expiry 0 cancels the pending
timeout. -/
def ccw_device_set_timeout0 (c : CDevS) : CDevS :=
  { c with timeoutPending := false }

/-! ### Recovery scheduler state -/

/-- `recovery_delay` (device.c:39): backoff tiers in seconds. -/
def recovery_delay : List Nat := [3, 30, 300]

/-- Process-wide recovery state: the backoff phase counter
(`recovery_phase`), whether `recovery_timer` is pending, and the delay
(seconds) at which the pending timer was armed. -/
structure Recovery where
  phase : Nat
  timerPending : Bool
  timerDelay : Option Nat
deriving DecidableEq, Repr

/-- `ccw_device_schedule_recovery` (device.c:1542). -/
def ccw_device_schedule_recovery (r : Recovery) : Recovery :=
  if !r.timerPending || r.phase != 0 then
    { phase := 0, timerPending := true, timerDelay := some (recovery_delay.getD 0 0) }
  else r

/-- The recovery state right after a re-arming `schedule()` call. -/
def recovery_scheduled : Recovery :=
  { phase := 0, timerPending := true, timerDelay := some (recovery_delay.getD 0 0) }

/-- `recovery_check` (device.c:1490), folded over the device list: sets
`redo` for a device in `DISCONNECTED` (also delivering a VERIFY event to
its FSM, an external call) or in `DISCONNECTED_SENSE_ID`. -/
def recovery_check (redo : Bool) (st : DevState) : Bool :=
  match st with
  | .DISCONNECTED => true
  | .DISCONNECTED_SENSE_ID => true
  | _ => redo

/-- The `bus_for_each_dev` scan of `recovery_work_func`: computes the
final `redo` flag over all known devices' states. -/
def recovery_scan (devs : List DevState) : Bool :=
  devs.foldl recovery_check false

/-- `recovery_work_func` (device.c:1513). -/
def recovery_work_func (devs : List DevState) (r : Recovery) : Recovery :=
  let redo := recovery_scan devs
  if redo then
    if !r.timerPending then
      let phase :=
        if r.phase < recovery_delay.length - 1 then r.phase + 1 else r.phase
      { phase := phase, timerPending := true,
        timerDelay := some (recovery_delay.getD phase 0) }
    else r
  else r

/-- The recovery timer expiring: it is no longer pending and its delay is
consumed (`recovery_func` then schedules `recovery_work`). -/
def recovery_timer_fire (r : Recovery) : Recovery :=
  { r with timerPending := false, timerDelay := none }

/-- One full firing of the recovery timer: the timer expires, then
`recovery_work_func` runs over the current device states. -/
def recovery_firing (devs : List DevState) (r : Recovery) : Recovery :=
  recovery_work_func devs (recovery_timer_fire r)

/-- `n` consecutive firings of the recovery timer. -/
def recovery_firings (devs : List DevState) (r : Recovery) : Nat → Recovery
  | 0 => r
  | n + 1 => recovery_firing devs (recovery_firings devs r n)

/-! ### Subchannel state and the event evaluator -/

/-- The fields of a subchannel that `io_subchannel_sch_event` and its
sub-calls read or write: the bound device (binding table entry), whether
the subchannel is still registered, its `config.intparm`, whether it is
enabled, its path mask and stored status snapshot. -/
structure SchS where
  cdev : Option CDevS
  registered : Bool
  intparm : Nat
  enabled : Bool
  lpm : Nat
  schib : Schib
deriving DecidableEq, Repr

/-- Externally visible calls made by the event evaluator. -/
inductive Eff where
  | reprobe
  | unregisterSch
  | commitConfig
  | probe
deriving DecidableEq, Repr

/-- `io_subchannel_notify` (device.c:1336): 0 when no device is bound,
else the bound driver's notify-callback result (`driverNotify`, an
oracle for the excluded driver collaborator). -/
def io_subchannel_notify (sch : SchS) (driverNotify : Int) : Int :=
  match sch.cdev with
  | none => 0
  | some _ => driverNotify

/-- `device_set_disconnected` (device.c:1594): cancel the timeout, clear
`fake_irb`, force `DISCONNECTED`, and schedule recovery if the device
was online. -/
def device_set_disconnected : Option CDevS → Recovery → Option CDevS × Recovery
  | none, r => (none, r)
  | some c, r =>
    let c := ccw_device_set_timeout0 c
    let c := { c with fake_irb := false, state := .DISCONNECTED }
    (some c, if c.online then ccw_device_schedule_recovery r else r)

/-- `ccw_device_set_notoper` (device.c:1605): cancel the timeout, disable
the subchannel (`cio_disable_subchannel`), force `NOT_OPER`. -/
def ccw_device_set_notoper (sch : SchS) : SchS :=
  match sch.cdev with
  | none => sch
  | some c =>
    { sch with
      cdev := some { ccw_device_set_timeout0 c with state := .NOT_OPER },
      enabled := false }

/-- The action chosen by the `switch (event)` block of
`io_subchannel_sch_event` (device.c:1646), with the `CIO_NO_PATH`
fall-through into `CIO_GONE` made explicit.  `notify` is the result of
`io_subchannel_notify`. -/
inductive SchAction where
  | NONE
  | UNREGISTER
  | UNREGISTER_PROBE
  | REPROBE
  | DISC
deriving DecidableEq, Repr

def sch_event_action (event : CioEvent) (disc : Bool) (notify : Int) : SchAction :=
  match event with
  | .NO_PATH =>
    if disc then .REPROBE
    else if notify ≠ 0 then .DISC else .UNREGISTER
  | .GONE =>
    if notify ≠ 0 then .DISC else .UNREGISTER
  | .REVALIDATE =>
    if disc then .REPROBE else .UNREGISTER_PROBE
  | .OPER =>
    if disc then .REPROBE else .NONE

/-- Result of an `io_subchannel_sch_event` call: return value, the
subchannel and recovery state after the call, and the effects emitted. -/
structure SchEventRes where
  ret : Int
  sch : SchS
  recovery : Recovery
  effs : List Eff
deriving DecidableEq, Repr

/-- `io_subchannel_sch_event` (device.c:1616).  Oracles: `stsch` feeds
`io_subchannel_get_status`, `driverNotify` the driver notify callback,
`probeRet` the `css_probe_device` result.  `css_sch_device_unregister`
is modelled as clearing `registered` plus an `unregisterSch` effect. -/
def io_subchannel_sch_event (sch : SchS) (rec : Recovery) (slow : Bool)
    (stsch : Option Schib) (driverNotify : Int) (probeRet : Int) : SchEventRes :=
  let disc := device_is_disconnected sch.cdev
  if disc && slow then
    ⟨0, sch, rec, []⟩
  else
    let sch :=
      match sch.cdev with
      | some c => { sch with cdev := some (ccw_device_set_timeout0 c) }
      | none => sch
    if !disc && !slow then
      ⟨-EAGAIN, sch, rec, []⟩
    else
      let event := io_subchannel_get_status sch.schib sch.lpm stsch
      let action := sch_event_action event disc (io_subchannel_notify sch driverNotify)
      let out :=
        match action with
        | .UNREGISTER | .UNREGISTER_PROBE =>
          let sch := ccw_device_set_notoper sch
          let sch := { sch with registered := false, intparm := 0 }
          (sch, rec, [Eff.unregisterSch, Eff.commitConfig])
        | .REPROBE => (sch, rec, [Eff.reprobe])
        | .DISC =>
          let (c, rec) := device_set_disconnected sch.cdev rec
          ({ sch with cdev := c }, rec, ([] : List Eff))
        | .NONE => (sch, rec, [])
      if action == .UNREGISTER_PROBE then
        ⟨probeRet, out.1, out.2.1, out.2.2 ++ [Eff.probe]⟩
      else
        ⟨0, out.1, out.2.1, out.2.2⟩

/-! ### Synchronous online/offline transitions -/

/-- The fields of a ccw device read or written by `ccw_device_set_online`
and `ccw_device_set_offline`: online flag, whether a driver is bound and
which optional callbacks it provides, the FSM state, and the device's
reference count. -/
structure TransDev where
  online : Bool
  hasDrv : Bool
  hasSetOnline : Bool
  hasSetOffline : Bool
  state : DevState
  ref : Int
deriving DecidableEq, Repr

/-- Oracle for the excluded collaborators called by
`ccw_device_set_online`: `get_device` success, the `ccw_device_online`
transition-request result, the FSM state once `dev_fsm_final_state`
holds after onlining, the driver `set_online` callback result, the
rollback `ccw_device_offline` result, and the settled state after a
successful rollback. -/
structure OnlineOracle where
  getDeviceOk : Bool
  ccwOnlineRet : Int
  settledState : DevState
  drvSetOnlineRet : Int
  ccwOfflineRet : Int
  settledOfflineState : DevState
deriving DecidableEq, Repr

/-- `ccw_device_set_online` (device.c:410); a NULL device is `none`. -/
def ccw_device_set_online : Option TransDev → OnlineOracle → Option TransDev × Int
  | none, _ => (none, -ENODEV)
  | some cdev, o =>
    if cdev.online || !cdev.hasDrv then (some cdev, -EINVAL)
    else if !o.getDeviceOk then (some cdev, -ENODEV)
    else
      let cdev := { cdev with ref := cdev.ref + 1 }
      if o.ccwOnlineRet ≠ 0 then
        (some { cdev with ref := cdev.ref - 1 }, o.ccwOnlineRet)
      else
        let cdev := { cdev with state := o.settledState }
        if cdev.state ≠ .ONLINE then
          (some { cdev with ref := cdev.ref - 1 }, -ENODEV)
        else if !cdev.hasSetOnline || o.drvSetOnlineRet = 0 then
          (some { cdev with online := true }, 0)
        else
          let cdev :=
            if o.ccwOfflineRet = 0 then { cdev with state := o.settledOfflineState }
            else cdev
          (some { cdev with ref := cdev.ref - 1 },
           if o.ccwOfflineRet = 0 then -ENODEV else o.ccwOfflineRet)

/-- Oracle for the excluded collaborators called by
`ccw_device_set_offline`: the driver `set_offline` callback result, the
`ccw_device_offline` transition-request result, the FSM state right
after that call returns, and the settled state after a successful
offlining. -/
structure OfflineOracle where
  drvSetOfflineRet : Int
  ccwOfflineRet : Int
  stateAfterOffline : DevState
  settledState : DevState
deriving DecidableEq, Repr

/-- `ccw_device_set_offline` (device.c:356); a NULL device is `none`.
In the `-ENODEV` branch the code also delivers a `NOTOPER` FSM event
(external call) after forcing `OFFLINE`. -/
def ccw_device_set_offline : Option TransDev → OfflineOracle → Option TransDev × Int
  | none, _ => (none, -ENODEV)
  | some cdev, o =>
    if !cdev.online || !cdev.hasDrv then (some cdev, -EINVAL)
    else if cdev.hasSetOffline && o.drvSetOfflineRet ≠ 0 then
      (some cdev, o.drvSetOfflineRet)
    else
      let cdev := { cdev with online := false }
      let cdev := { cdev with state := o.stateAfterOffline }
      if o.ccwOfflineRet = -ENODEV then
        let cdev :=
          if cdev.state ≠ .NOT_OPER then { cdev with state := .OFFLINE } else cdev
        (some { cdev with ref := cdev.ref - 1 }, -ENODEV)
      else if o.ccwOfflineRet = 0 then
        (some { cdev with state := o.settledState, ref := cdev.ref - 1 }, 0)
      else
        (some { cdev with online := true }, o.ccwOfflineRet)

/-! ### The `online` attribute store (concurrent-transition guard) -/

/-- State seen by `online_store`: the `atomic_t onoff` in-flight marker
plus the device fields its sub-operations may touch. -/
structure OnoffState where
  onoff : Bool
  devOnline : Bool
  devState : DevState
  devRef : Int
deriving DecidableEq, Repr

/-- `online_store` (device.c:507).  `moduleGetOk` is the
`try_module_get` result, `force`/`parsed` the outcome of parsing the
attribute buffer (`parsed = none` for a `strict_strtoul` failure),
`handleOffline`/`handleOnline` the `online_store_handle_offline` /
`online_store_handle_online` sub-operations (arbitrary state
transformers, since they call into drivers), and `count` the buffer
length returned on success. -/
def online_store (st : OnoffState) (moduleGetOk force : Bool) (parsed : Option Nat)
    (handleOffline : OnoffState → OnoffState)
    (handleOnline : OnoffState → OnoffState × Int)
    (count : Int) : OnoffState × Int :=
  if st.onoff then (st, -EAGAIN)
  else
    let st := { st with onoff := true }
    if !moduleGetOk then ({ st with onoff := false }, -EINVAL)
    else
      let out :=
        match (if force then some 1 else parsed) with
        | some 0 => (handleOffline st, count)
        | some 1 =>
          let r := handleOnline st
          (r.1, if r.2 = 0 then count else r.2)
        | some _ => (st, -EINVAL)
        | none => (st, (-EINVAL : Int))
      ({ out.1 with onoff := false }, out.2)

/-! ### Device relocation between subchannels -/

/-- World state for a relocation of one ccw device: the destination
subchannel (`new`), the device's current parent subchannel (`old`), and
the device itself.  Bindings (`sch_set_cdev`) are the `Cdev` fields,
refcounts the `Ref` fields; `devParentIsNew` is the device's
`dev.parent` pointer after/before `device_move`. -/
structure RelocWorld where
  newRef : Int
  newRegistered : Bool
  newCdev : Bool
  newIntparm : Nat
  oldRef : Int
  oldRegistered : Bool
  oldCdev : Bool
  oldIntparm : Nat
  oldIsPseudo : Bool
  devRef : Int
  devParentIsNew : Bool
deriving DecidableEq, Repr

/-- Externally visible calls made during relocation. -/
inductive RelocEff where
  | unregisterNew
  | unregisterOld
  | updateSsd
  | reprobe
  | commitOld
deriving DecidableEq, Repr

/-- `sch_attach_device` (device.c:779): refresh ssd info, bind the
device on the destination under lock, trigger reprobe. -/
def sch_attach_device (w : RelocWorld) : RelocWorld × List RelocEff :=
  ({ w with newCdev := true }, [RelocEff.updateSsd, RelocEff.reprobe])

/-- `sch_attach_disconnected_device` (device.c:791).  `getOk` is the
`get_device` result for the new parent, `moveOk` the `device_move`
outcome. -/
def sch_attach_disconnected_device (w : RelocWorld) (getOk moveOk : Bool) :
    RelocWorld × List RelocEff :=
  if !getOk then (w, [])
  else
    let w := { w with newRef := w.newRef + 1 }
    if !moveOk then ({ w with newRef := w.newRef - 1 }, [])
    else
      let w := { w with devParentIsNew := true }
      let w := { w with oldCdev := false }
      let w := { w with oldRegistered := false }
      let a := sch_attach_device w
      ({ a.1 with oldRef := a.1.oldRef - 1 }, RelocEff.unregisterOld :: a.2)

/-- `sch_attach_orphaned_device` (device.c:819): the former parent is the
orphan pseudo-subchannel, which is only reference-released. -/
def sch_attach_orphaned_device (w : RelocWorld) (getOk moveOk : Bool) :
    RelocWorld × List RelocEff :=
  if !getOk then (w, [])
  else
    let w := { w with newRef := w.newRef + 1 }
    if !moveOk then ({ w with newRef := w.newRef - 1 }, [])
    else
      let w := { w with devParentIsNew := true }
      let a := sch_attach_device w
      ({ a.1 with oldRef := a.1.oldRef - 1 }, a.2)

/-- `ccw_device_move_to_sch` (device.c:1112).  On `device_move` failure
the destination subchannel is unregistered and its reference dropped;
the `out:` label then releases the work item's references on the former
parent and on the device. -/
def ccw_device_move_to_sch (w : RelocWorld) (getOk moveOk : Bool) :
    RelocWorld × List RelocEff :=
  if !getOk then (w, [])
  else
    let w := { w with newRef := w.newRef + 1 }
    if !moveOk then
      let w := { w with newRegistered := false }
      let w := { w with newRef := w.newRef - 1 }
      ({ w with oldRef := w.oldRef - 1, devRef := w.devRef - 1 },
       [RelocEff.unregisterNew])
    else
      let w := { w with devParentIsNew := true }
      let wAndEffs :=
        if !w.oldIsPseudo then
          ({ w with oldCdev := false, oldRegistered := false, oldIntparm := 0 },
           [RelocEff.unregisterOld, RelocEff.commitOld])
        else (w, [])
      let a := sch_attach_device wAndEffs.1
      ({ a.1 with oldRef := a.1.oldRef - 1, devRef := a.1.devRef - 1 },
       wAndEffs.2 ++ a.2)

/-! ### Replacement-device search and the orphanage protocol -/

/-- Stable device identity (`struct ccw_dev_id`, fields used here). -/
structure CcwDevId where
  ssid : Nat
  devno : Nat
deriving DecidableEq, Repr

/-- Modelled from the spec: `ccw_dev_id_is_equal` is defined in a header
outside this file; per the spec, identity match is exact subsystem-id
and device-number equality. -/
def ccw_dev_id_is_equal (a b : CcwDevId) : Bool :=
  a.ssid == b.ssid && a.devno == b.devno

/-- A ccw device as seen by the replacement searches: object identity
`uid` (distinguishing distinct device objects), FSM state, whether its
parent is the orphan pseudo-subchannel, and its device identity. -/
structure SearchDev where
  uid : Nat
  state : DevState
  isOrphan : Bool
  ssid : Nat
  devno : Nat
deriving DecidableEq, Repr

/-- `match_devno` (device.c:634): disconnected, not in the orphanage,
exact identity match, and not the sibling device passed by the caller. -/
def match_devno (d : SearchDev) (dev_id : CcwDevId) (sibling : Nat) : Bool :=
  d.state == .DISCONNECTED && !d.isOrphan &&
    ccw_dev_id_is_equal ⟨d.ssid, d.devno⟩ dev_id && d.uid != sibling

/-- `get_disc_ccwdev_by_dev_id` (device.c:649): `bus_find_device` over
the ccw bus device list with `match_devno`. -/
def get_disc_ccwdev_by_dev_id (devs : List SearchDev) (dev_id : CcwDevId)
    (sibling : Nat) : Option SearchDev :=
  devs.find? (fun d => match_devno d dev_id sibling)

/-- `match_orphan` (device.c:662): identity equality only. -/
def match_orphan (d : SearchDev) (dev_id : CcwDevId) : Bool :=
  ccw_dev_id_is_equal ⟨d.ssid, d.devno⟩ dev_id

/-- `get_orphaned_ccwdev_by_dev_id` (device.c:672): `device_find_child`
over the orphan pseudo-subchannel's children, i.e. the devices whose
parent is the orphanage. -/
def get_orphaned_ccwdev_by_dev_id (devs : List SearchDev) (dev_id : CcwDevId) :
    Option SearchDev :=
  (devs.filter (fun d => d.isOrphan)).find? (fun d => match_orphan d dev_id)

/-- Which branch of `ccw_device_move_to_orphanage` ran. -/
inductive OrphBranch where
  | moveFailed
  | discBranch
  | orphBranch
  | newBranch
deriving DecidableEq, Repr

/-- Outcome of `ccw_device_move_to_orphanage`: the branch taken, the
number of direct `put_device(&sch->dev)` calls it performed on the freed
subchannel, and the net refcount change it caused on the orphan
pseudo-subchannel. -/
structure OrphRes where
  branch : OrphBranch
  schPuts : Nat
  pseudoRefDelta : Int
deriving DecidableEq, Repr

/-- `ccw_device_move_to_orphanage` (device.c:876).  `devs` is the system
device list, `movingUid` the identity of the device being moved out
(passed as `sibling` to the disconnected search), `dev_id` the identity
read from the freed subchannel's schib, `moveOk` the outcome of the
`device_move` onto the orphanage. -/
def ccw_device_move_to_orphanage (devs : List SearchDev) (movingUid : Nat)
    (dev_id : CcwDevId) (moveOk : Bool) : OrphRes :=
  if !moveOk then ⟨.moveFailed, 0, 1 - 1⟩
  else
    match get_disc_ccwdev_by_dev_id devs dev_id movingUid with
    | some _ => ⟨.discBranch, 1, 1⟩
    | none =>
      match get_orphaned_ccwdev_by_dev_id devs dev_id with
      | some _ => ⟨.orphBranch, 1, 1⟩
      | none => ⟨.newBranch, 1, 1⟩

/-! ## Theorems -/

/-- C9: `io_subchannel_get_status` returns `GONE` both when the status
query itself fails and when it succeeds with the device-number-valid
flag clear; the four outcomes are decided in the fixed precedence
`GONE`, `REVALIDATE`, `NO_PATH`, `OPER`, so a subchannel reporting a
changed device number while having no usable path (`lpm = 0`) is
classified `REVALIDATE`, not `NO_PATH`. -/
theorem get_status_classification :
    (∀ s l, io_subchannel_get_status s l none = .GONE)
  ∧ (∀ s l d, io_subchannel_get_status s l (some ⟨⟨false, d⟩⟩) = .GONE)
  ∧ (∀ d d' l, d' ≠ d →
      io_subchannel_get_status ⟨⟨true, d⟩⟩ l (some ⟨⟨true, d'⟩⟩) = .REVALIDATE)
  ∧ (∀ d, io_subchannel_get_status ⟨⟨true, d⟩⟩ 0 (some ⟨⟨true, d⟩⟩) = .NO_PATH)
  ∧ (∀ d l, l ≠ 0 →
      io_subchannel_get_status ⟨⟨true, d⟩⟩ l (some ⟨⟨true, d⟩⟩) = .OPER) := by
  refine ⟨fun s l => rfl, fun s l d => rfl, ?_, ?_, ?_⟩
  · intro d d' l h
    simp [io_subchannel_get_status, h]
  · intro d
    simp [io_subchannel_get_status]
  · intro d l h
    simp [io_subchannel_get_status, h]

/-- Witness for `get_status_classification` at concrete inputs. -/
theorem get_status_classification_witness :
    io_subchannel_get_status ⟨⟨true, 1⟩⟩ 0 (some ⟨⟨true, 2⟩⟩) = .REVALIDATE ∧
    io_subchannel_get_status ⟨⟨true, 1⟩⟩ 3 (some ⟨⟨true, 1⟩⟩) = .OPER :=
  ⟨get_status_classification.2.2.1 1 2 0 (by decide),
   get_status_classification.2.2.2.2 1 3 (by decide)⟩

/-- C3: the `(status, disconnected)` pair maps to exactly one action:
`NO_PATH` with a disconnected device yields `REPROBE`; `NO_PATH` without
a disconnected device, and `GONE` (regardless of `disc`), yield `DISC`
when the driver notify callback returns nonzero and `UNREGISTER`
otherwise; `REVALIDATE` yields `REPROBE` when disconnected and
`UNREGISTER_PROBE` when not; `OPER` yields `REPROBE` when disconnected
and no action otherwise. -/
theorem sch_event_action_table (notify : Int) :
    sch_event_action .NO_PATH true notify = .REPROBE
  ∧ sch_event_action .NO_PATH false notify =
      (if notify ≠ 0 then .DISC else .UNREGISTER)
  ∧ (∀ disc, sch_event_action .GONE disc notify =
      (if notify ≠ 0 then .DISC else .UNREGISTER))
  ∧ sch_event_action .REVALIDATE true notify = .REPROBE
  ∧ sch_event_action .REVALIDATE false notify = .UNREGISTER_PROBE
  ∧ sch_event_action .OPER true notify = .REPROBE
  ∧ sch_event_action .OPER false notify = .NONE := by
  refine ⟨rfl, rfl, fun disc => rfl, rfl, rfl, rfl, rfl⟩

/-- C6: `ccw_device_schedule_recovery` is a no-op while the timer is
pending with phase 0, and in every other state resets the phase to 0 and
arms the timer at `recovery_delay[0] = 3`; hence it is idempotent. -/
theorem schedule_recovery_spec :
    (∀ r : Recovery, ccw_device_schedule_recovery r =
      if r.timerPending = true ∧ r.phase = 0 then r
      else { phase := 0, timerPending := true, timerDelay := some 3 })
  ∧ (∀ r : Recovery,
      ccw_device_schedule_recovery (ccw_device_schedule_recovery r) =
        ccw_device_schedule_recovery r) := by
  constructor
  · intro r
    rcases r with ⟨p, t, d⟩
    cases t <;> cases p <;> simp [ccw_device_schedule_recovery, recovery_delay]
  · intro r
    rcases r with ⟨p, t, d⟩
    cases t <;> cases p <;> simp [ccw_device_schedule_recovery, recovery_delay]

/-- C8: a request through the `online` attribute while a transition is
already in flight (`onoff` set) is rejected with `-EAGAIN` and performs
no side effects: the returned state is exactly the input state. -/
theorem online_store_busy_reject (st : OnoffState) (moduleGetOk force : Bool)
    (parsed : Option Nat) (handleOffline : OnoffState → OnoffState)
    (handleOnline : OnoffState → OnoffState × Int) (count : Int) :
    online_store { st with onoff := true } moduleGetOk force parsed
        handleOffline handleOnline count =
      ({ st with onoff := true }, -EAGAIN) := by
  simp [online_store]

/-- `recovery_check` accumulates like a boolean or. -/
theorem recovery_check_eq (redo : Bool) (st : DevState) :
    recovery_check redo st =
      (redo || (st == .DISCONNECTED || st == .DISCONNECTED_SENSE_ID)) := by
  cases st <;> cases redo <;> rfl

/-- The `bus_for_each_dev` fold computes an any-fold of the
needs-retry predicate. -/
theorem recovery_foldl_eq (devs : List DevState) (redo : Bool) :
    devs.foldl recovery_check redo =
      (redo || devs.any fun st => st == .DISCONNECTED || st == .DISCONNECTED_SENSE_ID) := by
  induction devs generalizing redo with
  | nil => simp
  | cons d tl ih => simp [List.foldl, ih, recovery_check_eq, Bool.or_assoc]

theorem recovery_scan_eq (devs : List DevState) :
    recovery_scan devs =
      (devs.any fun st => st == .DISCONNECTED || st == .DISCONNECTED_SENSE_ID) := by
  simp [recovery_scan, recovery_foldl_eq]

theorem recovery_scan_true_of_mem {devs : List DevState}
    (h : ∃ st ∈ devs, st = DevState.DISCONNECTED ∨ st = DevState.DISCONNECTED_SENSE_ID) :
    recovery_scan devs = true := by
  rw [recovery_scan_eq]
  rcases h with ⟨st, hmem, hst⟩
  refine List.any_eq_true.2 ⟨st, hmem, ?_⟩
  rcases hst with h | h <;> simp [h]

theorem recovery_scan_false_of_none {devs : List DevState}
    (h : ∀ st ∈ devs, st ≠ DevState.DISCONNECTED ∧ st ≠ DevState.DISCONNECTED_SENSE_ID) :
    recovery_scan devs = false := by
  rw [recovery_scan_eq]
  simp only [List.any_eq_false]
  intro st hmem
  have hst := h st hmem
  simp [hst.1, hst.2]

/-- Closed form of the recovery state after `n` consecutive firings that
each still find a disconnected device, starting from a fresh
`schedule()` arming. -/
theorem recovery_firings_closed (devs : List DevState)
    (h : recovery_scan devs = true) (n : Nat) :
    recovery_firings devs recovery_scheduled n =
      { phase := min n 2, timerPending := true,
        timerDelay := some (recovery_delay.getD (min n 2) 0) } := by
  induction n with
  | zero => rfl
  | succ n ih =>
    have hlen : recovery_delay.length - 1 = 2 := rfl
    have harith : (if min n 2 < recovery_delay.length - 1 then min n 2 + 1 else min n 2)
        = min (n + 1) 2 := by
      rw [hlen]; split <;> omega
    simp only [recovery_firings, ih, recovery_firing, recovery_timer_fire,
      recovery_work_func, h, harith]
    simp

/-- C5: a recovery firing that still finds a device in `DISCONNECTED` or
`DISCONNECTED_SENSE_ID` and no pending timer advances the phase by one,
saturating at the last index of `recovery_delay = [3, 30, 300]`, and
re-arms at `recovery_delay[phase]`; across consecutive non-resolving
firings the armed delay is non-decreasing and from the second firing on
stays at 300; a firing that finds no such device does not re-arm. -/
theorem recovery_backoff_spec :
    (∀ (devs : List DevState) (r : Recovery),
      (∃ st ∈ devs, st = DevState.DISCONNECTED ∨ st = DevState.DISCONNECTED_SENSE_ID) →
      r.timerPending = false → r.phase ≤ 2 →
      recovery_work_func devs r =
        { phase := min (r.phase + 1) 2, timerPending := true,
          timerDelay := some (recovery_delay.getD (min (r.phase + 1) 2) 0) })
  ∧ (∀ devs : List DevState,
      (∃ st ∈ devs, st = DevState.DISCONNECTED ∨ st = DevState.DISCONNECTED_SENSE_ID) →
      ∀ n, (recovery_firings devs recovery_scheduled n).timerDelay.getD 0 ≤
           (recovery_firings devs recovery_scheduled (n + 1)).timerDelay.getD 0)
  ∧ (∀ devs : List DevState,
      (∃ st ∈ devs, st = DevState.DISCONNECTED ∨ st = DevState.DISCONNECTED_SENSE_ID) →
      ∀ n, 2 ≤ n → (recovery_firings devs recovery_scheduled n).timerDelay = some 300)
  ∧ (∀ (devs : List DevState) (r : Recovery),
      (∀ st ∈ devs, st ≠ DevState.DISCONNECTED ∧ st ≠ DevState.DISCONNECTED_SENSE_ID) →
      recovery_firing devs r = recovery_timer_fire r) := by
  refine ⟨?_, ?_, ?_, ?_⟩
  · intro devs r hex hpend hle
    have hscan := recovery_scan_true_of_mem hex
    have hlen : recovery_delay.length - 1 = 2 := rfl
    have harith : (if r.phase < recovery_delay.length - 1 then r.phase + 1 else r.phase)
        = min (r.phase + 1) 2 := by
      rw [hlen]; split <;> omega
    simp only [recovery_work_func, hscan, hpend, harith]
    simp
  · intro devs hex n
    have hscan := recovery_scan_true_of_mem hex
    rw [recovery_firings_closed devs hscan n, recovery_firings_closed devs hscan (n + 1)]
    rcases n with _ | _ | n
    · simp [recovery_delay]
    · simp [recovery_delay]
    · have h2 : min (n + 1 + 1) 2 = 2 := by omega
      have h3 : min (n + 1 + 1 + 1) 2 = 2 := by omega
      simp [h2, h3]
  · intro devs hex n hn
    have hscan := recovery_scan_true_of_mem hex
    rw [recovery_firings_closed devs hscan n]
    have hmin : min n 2 = 2 := by omega
    rw [hmin]
    rfl
  · intro devs r hnone
    have hscan := recovery_scan_false_of_none hnone
    simp [recovery_firing, recovery_work_func, hscan]

/-- Witness for `recovery_backoff_spec` at concrete inputs. -/
theorem recovery_backoff_spec_witness :
    recovery_work_func [DevState.DISCONNECTED]
        { phase := 0, timerPending := false, timerDelay := none } =
      { phase := 1, timerPending := true, timerDelay := some 30 } ∧
    (recovery_firings [DevState.DISCONNECTED] recovery_scheduled 3).timerDelay = some 300 ∧
    recovery_firing [DevState.ONLINE]
        { phase := 1, timerPending := false, timerDelay := none } =
      recovery_timer_fire { phase := 1, timerPending := false, timerDelay := none } := by
  have hex : ∃ st ∈ [DevState.DISCONNECTED],
      st = DevState.DISCONNECTED ∨ st = DevState.DISCONNECTED_SENSE_ID := by
    exact ⟨DevState.DISCONNECTED, by simp, Or.inl rfl⟩
  refine ⟨?_, ?_, ?_⟩
  · have h := recovery_backoff_spec.1 [DevState.DISCONNECTED]
      { phase := 0, timerPending := false, timerDelay := none } hex rfl (by decide)
    simpa [recovery_delay] using h
  · exact recovery_backoff_spec.2.2.1 [DevState.DISCONNECTED] hex 3 (by decide)
  · exact recovery_backoff_spec.2.2.2 [DevState.ONLINE] _ (by simp)

/-- C10: a candidate returned by the disconnected-replacement search is
in state `DISCONNECTED`, not in the orphanage, has exactly the requested
identity, and is not the sibling device passed by the caller — so
`move-to-orphanage` can select neither the device it is moving nor an
orphaned device in its first search step. -/
theorem disc_search_sound (devs : List SearchDev) (dev_id : CcwDevId) (sibling : Nat)
    (c : SearchDev) (h : get_disc_ccwdev_by_dev_id devs dev_id sibling = some c) :
    c.state = .DISCONNECTED ∧ c.isOrphan = false ∧
    c.ssid = dev_id.ssid ∧ c.devno = dev_id.devno ∧ c.uid ≠ sibling := by
  have hp := List.find?_some h
  simp [match_devno, ccw_dev_id_is_equal] at hp
  obtain ⟨⟨⟨h1, h2⟩, h3, h4⟩, h5⟩ := hp
  exact ⟨h1, h2, h3, h4, h5⟩

/-- Witness for `disc_search_sound` at a concrete device list. -/
theorem disc_search_sound_witness :
    (⟨2, .DISCONNECTED, false, 0, 5⟩ : SearchDev).state = .DISCONNECTED ∧
    (⟨2, .DISCONNECTED, false, 0, 5⟩ : SearchDev).isOrphan = false ∧
    (⟨2, .DISCONNECTED, false, 0, 5⟩ : SearchDev).ssid = (⟨0, 5⟩ : CcwDevId).ssid ∧
    (⟨2, .DISCONNECTED, false, 0, 5⟩ : SearchDev).devno = (⟨0, 5⟩ : CcwDevId).devno ∧
    (⟨2, .DISCONNECTED, false, 0, 5⟩ : SearchDev).uid ≠ 7 :=
  disc_search_sound
    [⟨1, .ONLINE, false, 0, 5⟩, ⟨2, .DISCONNECTED, false, 0, 5⟩]
    ⟨0, 5⟩ 7 ⟨2, .DISCONNECTED, false, 0, 5⟩ (by rfl)

/-- C1 counterexample: a disconnected device's event presented on the
slow path is rejected before the timeout-cancel call runs, so contrary
to the claim the bound device's pending timeout is NOT cancelled in that
rejection case — the state (including `timeoutPending = true`) is
returned completely unchanged. -/
theorem sch_event_slow_reject_keeps_timeout :
    io_subchannel_sch_event
      { cdev := some { state := .DISCONNECTED, online := true,
                       timeoutPending := true, fake_irb := false },
        registered := true, intparm := 5, enabled := true, lpm := 1,
        schib := ⟨⟨true, 7⟩⟩ }
      { phase := 0, timerPending := false, timerDelay := none } true none 0 0 =
      ⟨0,
       { cdev := some { state := .DISCONNECTED, online := true,
                        timeoutPending := true, fake_irb := false },
         registered := true, intparm := 5, enabled := true, lpm := 1,
         schib := ⟨⟨true, 7⟩⟩ },
       { phase := 0, timerPending := false, timerDelay := none }, []⟩ := by
  decide

/-- C1 (amended): a disconnected device's event presented on the slow
path is rejected (return 0) with the state completely unchanged — in
particular without cancelling the pending timeout; a non-disconnected
device's event presented on the fast path is rejected with `-EAGAIN`
whose only state change is that the bound device's pending timeout has
been cancelled first. -/
theorem sch_event_path_rejection (sch : SchS) (rec : Recovery)
    (stsch : Option Schib) (driverNotify probeRet : Int) :
    (device_is_disconnected sch.cdev = true →
      io_subchannel_sch_event sch rec true stsch driverNotify probeRet =
        ⟨0, sch, rec, []⟩)
  ∧ (device_is_disconnected sch.cdev = false →
      io_subchannel_sch_event sch rec false stsch driverNotify probeRet =
        ⟨-EAGAIN, { sch with cdev := sch.cdev.map ccw_device_set_timeout0 },
         rec, []⟩) := by
  rcases sch with ⟨cdev, reg, ip, en, lpm, schib⟩
  constructor
  · intro h
    simp [io_subchannel_sch_event, h]
  · intro h
    rcases cdev with _ | c <;>
      simp_all [io_subchannel_sch_event]

/-- Witness for `sch_event_path_rejection` at concrete inputs. -/
theorem sch_event_path_rejection_witness :
    io_subchannel_sch_event
      { cdev := some { state := .DISCONNECTED, online := false,
                       timeoutPending := true, fake_irb := false },
        registered := true, intparm := 0, enabled := true, lpm := 1,
        schib := ⟨⟨true, 7⟩⟩ }
      { phase := 0, timerPending := false, timerDelay := none } true none 0 0 =
      ⟨0,
       { cdev := some { state := .DISCONNECTED, online := false,
                        timeoutPending := true, fake_irb := false },
         registered := true, intparm := 0, enabled := true, lpm := 1,
         schib := ⟨⟨true, 7⟩⟩ },
       { phase := 0, timerPending := false, timerDelay := none }, []⟩ ∧
    io_subchannel_sch_event
      { cdev := some { state := .ONLINE, online := true,
                       timeoutPending := true, fake_irb := false },
        registered := true, intparm := 0, enabled := true, lpm := 1,
        schib := ⟨⟨true, 7⟩⟩ }
      { phase := 0, timerPending := false, timerDelay := none } false none 0 0 =
      ⟨-EAGAIN,
       { cdev := some { state := .ONLINE, online := true,
                        timeoutPending := false, fake_irb := false },
         registered := true, intparm := 0, enabled := true, lpm := 1,
         schib := ⟨⟨true, 7⟩⟩ },
       { phase := 0, timerPending := false, timerDelay := none }, []⟩ := by
  constructor
  · exact (sch_event_path_rejection _ _ _ _ _).1 (by decide)
  · have h := (sch_event_path_rejection
      { cdev := some { state := .ONLINE, online := true,
                       timeoutPending := true, fake_irb := false },
        registered := true, intparm := 0, enabled := true, lpm := 1,
        schib := ⟨⟨true, 7⟩⟩ }
      { phase := 0, timerPending := false, timerDelay := none } none 0 0).2 (by decide)
    simpa [ccw_device_set_timeout0] using h

/-- C2 counterexample: in `sch_attach_disconnected_device` a failing
`device_move` only rolls back the new-parent reference and returns —
the destination subchannel that triggered the relocation is NOT
unregistered (its `registered` flag stays `true` and no unregister
effect is emitted), contrary to the claim's "unregistered as a
fallback" for every relocation. -/
theorem attach_disconnected_failure_no_unregister :
    sch_attach_disconnected_device
      { newRef := 1, newRegistered := true, newCdev := false, newIntparm := 0,
        oldRef := 1, oldRegistered := true, oldCdev := true, oldIntparm := 0,
        oldIsPseudo := false, devRef := 1, devParentIsNew := false } true false =
      ({ newRef := 1, newRegistered := true, newCdev := false, newIntparm := 0,
         oldRef := 1, oldRegistered := true, oldCdev := true, oldIntparm := 0,
         oldIsPseudo := false, devRef := 1, devParentIsNew := false }, []) := by
  decide

/-- C2 (amended): when the physical reparent fails, every relocation
rolls back the new-parent reference and leaves the prior binding intact
(the world is unchanged up to the released work-item references), but
only `ccw_device_move_to_sch` unregisters the destination subchannel as
a fallback; `sch_attach_disconnected_device` and
`sch_attach_orphaned_device` return with the destination still
registered and no unregister effect. -/
theorem relocation_failure_rollback (w : RelocWorld) :
    ccw_device_move_to_sch w true false =
      ({ w with newRegistered := false,
                oldRef := w.oldRef - 1, devRef := w.devRef - 1 },
       [RelocEff.unregisterNew])
  ∧ sch_attach_disconnected_device w true false = (w, [])
  ∧ sch_attach_orphaned_device w true false = (w, []) := by
  rcases w with ⟨nr, nreg, nc, ni, or', oreg, oc, oi, op, dr, dp⟩
  refine ⟨?_, ?_, ?_⟩ <;>
    simp [ccw_device_move_to_sch, sch_attach_disconnected_device,
      sch_attach_orphaned_device]

/-- C4: once the initial reparent onto the orphanage succeeds, exactly
one of the three branches of `ccw_device_move_to_orphanage` runs —
relocate a matching disconnected device, else relocate a matching
orphaned device, else create a new device; when both a disconnected and
an orphaned candidate with the target identity exist, the disconnected
one is chosen; and every branch performs exactly one direct release of
the reference held on the freed subchannel. -/
theorem move_to_orphanage_branches (devs : List SearchDev) (movingUid : Nat)
    (dev_id : CcwDevId) :
    ((ccw_device_move_to_orphanage devs movingUid dev_id true).branch = .discBranch ↔
      (get_disc_ccwdev_by_dev_id devs dev_id movingUid).isSome = true)
  ∧ ((ccw_device_move_to_orphanage devs movingUid dev_id true).branch = .orphBranch ↔
      ((get_disc_ccwdev_by_dev_id devs dev_id movingUid).isSome = false ∧
       (get_orphaned_ccwdev_by_dev_id devs dev_id).isSome = true))
  ∧ ((ccw_device_move_to_orphanage devs movingUid dev_id true).branch = .newBranch ↔
      ((get_disc_ccwdev_by_dev_id devs dev_id movingUid).isSome = false ∧
       (get_orphaned_ccwdev_by_dev_id devs dev_id).isSome = false))
  ∧ (ccw_device_move_to_orphanage devs movingUid dev_id true).branch ≠ .moveFailed
  ∧ ((∃ d ∈ devs, match_devno d dev_id movingUid = true) →
      (ccw_device_move_to_orphanage devs movingUid dev_id true).branch = .discBranch)
  ∧ (ccw_device_move_to_orphanage devs movingUid dev_id true).schPuts = 1 := by
  rcases hd : get_disc_ccwdev_by_dev_id devs dev_id movingUid with _ | c
  · have hnone : ∀ d ∈ devs, ¬match_devno d dev_id movingUid = true :=
      List.find?_eq_none.1 hd
    rcases ho : get_orphaned_ccwdev_by_dev_id devs dev_id with _ | c2 <;>
      refine ⟨?_, ?_, ?_, ?_, ?_, ?_⟩ <;>
        simp [ccw_device_move_to_orphanage, hd, ho] <;>
        · intro d hmem
          simpa using hnone d hmem
  · refine ⟨?_, ?_, ?_, ?_, ?_, ?_⟩ <;>
      simp [ccw_device_move_to_orphanage, hd]

/-- Witness for `move_to_orphanage_branches`: with both a disconnected
and an orphaned candidate of the target identity present, the
disconnected branch is taken. -/
theorem move_to_orphanage_branches_witness :
    (ccw_device_move_to_orphanage
      [⟨1, .DISCONNECTED, false, 0, 5⟩, ⟨2, .OFFLINE, true, 0, 5⟩]
      9 ⟨0, 5⟩ true).branch = .discBranch :=
  (move_to_orphanage_branches
    [⟨1, .DISCONNECTED, false, 0, 5⟩, ⟨2, .OFFLINE, true, 0, 5⟩]
    9 ⟨0, 5⟩).2.2.2.2.1 (by decide)

/-- C7 counterexample: (1) with the device settled `ONLINE` and the
driver's `set_online` callback failing with error `-5`, a successful
rollback makes `ccw_device_set_online` return `-ENODEV` — the driver's
error code is discarded, so the failure signal does not distinguish
"driver rejected" from "device vanished"; (2) when `ccw_device_offline`
reports `-ENODEV`, `ccw_device_set_offline` fails but leaves the online
flag cleared instead of restoring its pre-call value `true`. -/
theorem transition_failure_counterexample :
    (ccw_device_set_online
      (some { online := false, hasDrv := true, hasSetOnline := true,
              hasSetOffline := false, state := .OFFLINE, ref := 0 })
      { getDeviceOk := true, ccwOnlineRet := 0, settledState := .ONLINE,
        drvSetOnlineRet := -5, ccwOfflineRet := 0,
        settledOfflineState := .OFFLINE }).2 = -ENODEV
  ∧ (ccw_device_set_offline
      (some { online := true, hasDrv := true, hasSetOnline := false,
              hasSetOffline := false, state := .ONLINE, ref := 1 })
      { drvSetOfflineRet := 0, ccwOfflineRet := -ENODEV,
        stateAfterOffline := .ONLINE, settledState := .OFFLINE }) =
      (some { online := false, hasDrv := true, hasSetOnline := false,
              hasSetOffline := false, state := .OFFLINE, ref := 0 }, -ENODEV) := by
  constructor
  · decide
  · decide

/-- C7 (amended): every failing `ccw_device_set_online` leaves the
online flag at its pre-call value and releases the speculative online
reference; a pre-settlement transition failure returns
`ccw_device_online`'s error and a settled-but-not-online device returns
`-ENODEV`, while a driver `set_online` rejection is reported as
`-ENODEV` when the rollback offlining succeeds and as the rollback's
error otherwise (the driver's own error code is discarded).  A failing
`ccw_device_set_offline` returns the rejecting call's error with the
online flag restored, except that on `-ENODEV` (device vanished) the
online flag remains cleared and the online reference is released. -/
theorem transition_failure_spec (d : TransDev) (o : OnlineOracle) (o2 : OfflineOracle) :
    (d.online = false → d.hasDrv = true → o.getDeviceOk = false →
      ccw_device_set_online (some d) o = (some d, -ENODEV))
  ∧ (d.online = false → d.hasDrv = true → o.getDeviceOk = true →
      o.ccwOnlineRet ≠ 0 →
      ccw_device_set_online (some d) o = (some d, o.ccwOnlineRet))
  ∧ (d.online = false → d.hasDrv = true → o.getDeviceOk = true →
      o.ccwOnlineRet = 0 → o.settledState ≠ .ONLINE →
      ccw_device_set_online (some d) o =
        (some { d with state := o.settledState }, -ENODEV))
  ∧ (d.online = false → d.hasDrv = true → o.getDeviceOk = true →
      o.ccwOnlineRet = 0 → o.settledState = .ONLINE →
      d.hasSetOnline = true → o.drvSetOnlineRet ≠ 0 →
      ccw_device_set_online (some d) o =
        (some { d with state := if o.ccwOfflineRet = 0 then o.settledOfflineState
                                else .ONLINE },
         if o.ccwOfflineRet = 0 then -ENODEV else o.ccwOfflineRet))
  ∧ (d.online = true → d.hasDrv = true → d.hasSetOffline = true →
      o2.drvSetOfflineRet ≠ 0 →
      ccw_device_set_offline (some d) o2 = (some d, o2.drvSetOfflineRet))
  ∧ (d.online = true → d.hasDrv = true →
      (d.hasSetOffline = false ∨ o2.drvSetOfflineRet = 0) →
      o2.ccwOfflineRet = -ENODEV →
      ccw_device_set_offline (some d) o2 =
        (some { d with
                online := false,
                state := (if o2.stateAfterOffline ≠ .NOT_OPER then .OFFLINE
                          else .NOT_OPER),
                ref := d.ref - 1 }, -ENODEV))
  ∧ (d.online = true → d.hasDrv = true →
      (d.hasSetOffline = false ∨ o2.drvSetOfflineRet = 0) →
      o2.ccwOfflineRet ≠ -ENODEV → o2.ccwOfflineRet ≠ 0 →
      ccw_device_set_offline (some d) o2 =
        (some { d with state := o2.stateAfterOffline }, o2.ccwOfflineRet)) := by
  obtain ⟨don, ddrv, dso, dsoff, dst, dref⟩ := d
  refine ⟨?_, ?_, ?_, ?_, ?_, ?_, ?_⟩
  · intro h1 h2 h3
    subst h1; subst h2
    simp [ccw_device_set_online, h3]
  · intro h1 h2 h3 h4
    subst h1; subst h2
    simp [ccw_device_set_online, h3, h4]
  · intro h1 h2 h3 h4 h5
    subst h1; subst h2
    simp [ccw_device_set_online, h3, h4, h5]
  · intro h1 h2 h3 h4 h5 h6 h7
    subst h1; subst h2; subst h6
    simp [ccw_device_set_online, h3, h4, h5, h7]
    split_ifs with h <;> simp [h]
  · intro h1 h2 h3 h4
    subst h1; subst h2; subst h3
    simp [ccw_device_set_offline, h4]
  · intro h1 h2 h3 h4
    subst h1; subst h2
    rcases h3 with h3 | h3
    · subst h3
      simp [ccw_device_set_offline, h4]
      split_ifs with h <;> simp_all
    · simp [ccw_device_set_offline, h3, h4]
      split_ifs with h <;> simp_all
  · intro h1 h2 h3 h4 h5
    subst h1; subst h2
    rcases h3 with h3 | h3
    · subst h3
      simp [ccw_device_set_offline, h4, h5]
    · simp [ccw_device_set_offline, h3, h4, h5]

/-- Witness for `transition_failure_spec` at concrete inputs. -/
theorem transition_failure_spec_witness :
    ccw_device_set_online
      (some { online := false, hasDrv := true, hasSetOnline := false,
              hasSetOffline := false, state := .OFFLINE, ref := 2 })
      { getDeviceOk := false, ccwOnlineRet := 0, settledState := .ONLINE,
        drvSetOnlineRet := 0, ccwOfflineRet := 0,
        settledOfflineState := .OFFLINE } =
      (some { online := false, hasDrv := true, hasSetOnline := false,
              hasSetOffline := false, state := .OFFLINE, ref := 2 }, -ENODEV) ∧
    ccw_device_set_offline
      (some { online := true, hasDrv := true, hasSetOnline := false,
              hasSetOffline := true, state := .ONLINE, ref := 1 })
      { drvSetOfflineRet := -5, ccwOfflineRet := 0,
        stateAfterOffline := .ONLINE, settledState := .OFFLINE } =
      (some { online := true, hasDrv := true, hasSetOnline := false,
              hasSetOffline := true, state := .ONLINE, ref := 1 }, -5) := by
  constructor
  · exact (transition_failure_spec
      { online := false, hasDrv := true, hasSetOnline := false,
        hasSetOffline := false, state := .OFFLINE, ref := 2 }
      { getDeviceOk := false, ccwOnlineRet := 0, settledState := .ONLINE,
        drvSetOnlineRet := 0, ccwOfflineRet := 0,
        settledOfflineState := .OFFLINE }
      { drvSetOfflineRet := 0, ccwOfflineRet := 0,
        stateAfterOffline := .ONLINE, settledState := .OFFLINE }).1 rfl rfl rfl
  · exact (transition_failure_spec
      { online := true, hasDrv := true, hasSetOnline := false,
        hasSetOffline := true, state := .ONLINE, ref := 1 }
      { getDeviceOk := false, ccwOnlineRet := 0, settledState := .ONLINE,
        drvSetOnlineRet := 0, ccwOfflineRet := 0,
        settledOfflineState := .OFFLINE }
      { drvSetOfflineRet := -5, ccwOfflineRet := 0,
        stateAfterOffline := .ONLINE, settledState := .OFFLINE }).2.2.2.2.1
      rfl rfl rfl (by decide)

end CioDevice
